import Mathlib

/-!
Shallow embedding of the resume-assistant repository (Python) in Lean 4,
together with theorems checking the natural-language specification
against the code.

Source files embedded:
  * `src/latex_formatter.py`  — `escape_latex` and the section formatters
  * `src/llm_agents/content_optimizer.py` — polisher / critic agents and
    the `ContentOptimizer.optimize_content` convergence loop
  * `src/llm_agents/resume_checker.py` — `ResumeQualityChecker.check_resume`
  * `src/resume_generator.py` — `ResumeGenerator.generate_latex`
  * `tests/test_content_optimizer.py` — the bulk-experiment driver

Modelling conventions:
  * Python `str` is Lean `String`; per-character work happens on `.data`.
  * A Python dict field that may be absent is `Option α`; subscripting
    `d['k']` is `pyGet`, which returns `Except` with a `KeyError` message,
    and `d.get('k', v)` is `Option.getD`.
  * A Python exception propagating out of a function is `Except.error msg`.
  * The external text-generation service is an oracle function
    `svc : String → String → Except String String` (system content, user
    prompt → completion or failure); prompts are assembled faithfully from
    the source's templates even though no theorem depends on their text.
  * `float` values produced by parsing simple decimal tokens are modelled
    exactly as `ℚ`.
-/

/-! ## Python string primitives -/

/-- Python `str` whitespace (`str.strip` default set). -/
def pyIsSpace (c : Char) : Bool :=
  c = ' ' || c = '\t' || c = '\n' || c = '\r' || c = '\x0b' || c = '\x0c'

/-- Python `s.strip()`. -/
def pyStrip (s : String) : String :=
  String.mk (((s.data.dropWhile pyIsSpace).reverse.dropWhile pyIsSpace).reverse)

/-- Python `s.strip(chars)`: drop characters of `cs` from both ends. -/
def pyStripChars (cs : List Char) (s : String) : String :=
  String.mk (((s.data.dropWhile (cs.contains ·)).reverse.dropWhile (cs.contains ·)).reverse)

/-- Python `s.lstrip(chars)`. -/
def pyLstrip (cs : List Char) (s : String) : String :=
  String.mk (s.data.dropWhile (cs.contains ·))

/-- Python truthiness of an `Optional[str]`: `None` and `""` are falsy. -/
def truthy : Option String → Bool
  | none => false
  | some s => !(s = "")

/-- Map a fallible function over a list, left to right, stopping at the
first error (the behavior of a Python `for` loop of fallible statements
appending to an accumulator). -/
def mapME {α β : Type} (f : α → Except String β) : List α → Except String (List β)
  | [] => Except.ok []
  | a :: t => do
      let b ← f a
      let bs ← mapME f t
      pure (b :: bs)

/-- Python `d[k]` on a dict field modelled as `Option`: raises `KeyError`
when the key is absent. -/
def pyGet {α : Type} (field : Option α) (key : String) : Except String α :=
  match field with
  | some v => Except.ok v
  | none => Except.error ("KeyError: " ++ key)

/-- Index of the first occurrence of `needle` in `hay` (`str.find`,
but returning `none` instead of `-1` when absent). -/
def findSub (needle : List Char) : List Char → Option Nat
  | [] => if needle = [] then some 0 else none
  | c :: t =>
      if needle.isPrefixOf (c :: t) then some 0
      else (findSub needle t).map (· + 1)

/-- Python substring containment `needle in hay`. -/
def pyIn (needle hay : String) : Bool :=
  (findSub needle.data hay.data).isSome

/-- Python `hay.find(needle)`: index of first occurrence or `-1`. -/
def pyFind (hay needle : String) : Int :=
  match findSub needle.data hay.data with
  | some i => (i : Int)
  | none => -1

/-- Clamp a Python slice endpoint to `[0, n]`, resolving negatives. -/
def pySliceIdx (n : Nat) (i : Int) : Nat :=
  if i < 0 then ((n : Int) + i).toNat else min n i.toNat

/-- Python slice `s[i:j]` with full negative-index and clamping semantics. -/
def pySlice (s : String) (i j : Int) : String :=
  String.mk ((s.data.take (pySliceIdx s.data.length j)).drop (pySliceIdx s.data.length i))

/-- Python `s.split(sep, 1)` for a one-character separator known to occur:
text before the first `sep` and text after it. -/
def pySplitOnce (sep : Char) (s : String) : String × String :=
  (String.mk (s.data.takeWhile (· ≠ sep)),
   String.mk ((s.data.dropWhile (· ≠ sep)).drop 1))

/-- Split a character list on a separator, keeping empty pieces (the
semantics of Python `str.split` with an explicit one-character separator);
the result is never empty. -/
def splitChars (sep : Char) : List Char → List (List Char)
  | [] => [[]]
  | c :: t =>
      if c = sep then [] :: splitChars sep t
      else
        match splitChars sep t with
        | [] => [[c]]
        | h :: r => (c :: h) :: r

/-- Python `s.split(sep)` for a one-character separator. -/
def pySplit (sep : Char) (s : String) : List String :=
  (splitChars sep s.data).map String.mk

/-- Python `s.startswith(pre)`. -/
def pyStartsWith (pre s : String) : Bool :=
  pre.data.isPrefixOf s.data

/-- Python `s.split('\n')[-1]`: the final line of `s` (`split` never
returns an empty list). -/
def lastLineOf (s : String) : String :=
  (pySplit '\n' s).getLastD ""

/-! ## `latex_formatter.escape_latex` (src/latex_formatter.py lines 4-29)

The Python function substitutes over a regex alternation of ten
single-character patterns; `re.sub` scans the input once, left to right,
and replacement text is never re-scanned.  Since every pattern is one
character, this is exactly an independent per-character mapping. -/

/-- The replacement table of `escape_latex`, as a map on one character. -/
def escapeChar (c : Char) : String :=
  if c = '&' then "\\&"
  else if c = '%' then "\\%"
  else if c = '$' then "\\$"
  else if c = '#' then "\\#"
  else if c = '_' then "\\_"
  else if c = '\x7b' then "\\\x7b"
  else if c = '\x7d' then "\\\x7d"
  else if c = '~' then "\\textasciitilde\x7b\x7d"
  else if c = '^' then "\\textasciicircum\x7b\x7d"
  else if c = '\\' then "\\textbackslash\x7b\x7d"
  else String.singleton c

/-- The ten characters `escape_latex` reserves. -/
def reservedChars : List Char :=
  ['&', '%', '$', '#', '_', '\x7b', '\x7d', '~', '^', '\\']

def escapeList : List Char → String
  | [] => ""
  | c :: cs => escapeChar c ++ escapeList cs

/-- `escape_latex` from src/latex_formatter.py: one simultaneous
left-to-right pass of the single-character replacement table. -/
def escape_latex (s : String) : String :=
  escapeList s.data

/-- Contrast model following the spec's words for what `escape_latex` must
NOT be: sequential substitution, applying each replacement rule over the
whole string one rule after another in the source dict's order (so the
backslash rule re-escapes backslashes introduced by earlier rules). -/
def seqEscapeLatex (s : String) : String :=
  let step := fun (acc : String) (rule : Char × String) =>
    String.join ((acc.data.map (fun c => if c = rule.1 then rule.2 else String.singleton c)))
  [('&', "\\&"), ('%', "\\%"), ('$', "\\$"), ('#', "\\#"), ('_', "\\_"),
   ('\x7b', "\\\x7b"), ('\x7d', "\\\x7d"), ('~', "\\textasciitilde\x7b\x7d"),
   ('^', "\\textasciicircum\x7b\x7d"), ('\\', "\\textbackslash\x7b\x7d")].foldl step s

/-! ## Section formatters (src/latex_formatter.py lines 31-207) -/

/-- `format_skills` from src/latex_formatter.py lines 31-48. -/
def format_skills (skills_text : String) : String :=
  if skills_text = "" then ""
  else
    let formatted_parts := (pySplit '\n' (pyStrip skills_text)).filterMap (fun line0 =>
      let line := pyStrip line0
      if pyIn ":" line then
        let parts := pySplitOnce ':' line
        some ("\\item[•] \\textbf\x7b" ++ escape_latex (pyStrip parts.1) ++ ":\x7d "
              ++ escape_latex (pyStrip parts.2))
      else if line ≠ "" then some ("\\item[•] " ++ escape_latex line)
      else none)
    "\\begin\x7bitemize\x7d[leftmargin=*, topsep=0pt, itemsep=0pt, parsep=0pt]\n"
      ++ String.intercalate "\n" formatted_parts ++ "\n\\end\x7bitemize\x7d"

/-- A project dict nested under an experience entry; both fields are read
with `.get(key, '')` in the source. -/
structure ProjDict where
  title : Option String
  description : Option String
deriving Repr, DecidableEq

/-- `format_experience` from src/latex_formatter.py lines 50-93. -/
def format_experience (company role dates location : String)
    (projects : List ProjDict) : String :=
  let company := escape_latex company
  let role := escape_latex role
  let dates := escape_latex dates
  let location := escape_latex location
  let projects_section :=
    if projects.isEmpty then ""
    else
      let project_parts := projects.map (fun project =>
        let title := escape_latex (project.title.getD "")
        let project_str :=
          "\\vspace\x7b-2pt\x7d\n\\hspace\x7b15pt\x7d\\textbf\x7b" ++ title ++ "\x7d"
        let project_description := project.description.getD ""
        if project_description ≠ "" then
          let project_bullets := pySplit '\n' (pyStrip project_description)
          if project_bullets.any (fun b => pyStrip b ≠ "") then
            let project_str := project_str ++
              "\n\\begin\x7bitemize\x7d[leftmargin=15pt, label=\x7b\\textbullet\x7d, topsep=0pt, itemsep=0pt]"
            let project_str := project_str ++ String.join (project_bullets.filterMap
              (fun bullet =>
                if pyStrip bullet ≠ "" then
                  some ("\n\\resumeItem\x7b" ++ escape_latex (pyStrip bullet) ++ "\x7d")
                else none))
            project_str ++ "\n\\end\x7bitemize\x7d"
          else project_str
        else project_str)
      String.intercalate "\n" project_parts
  let company_line := "\\textbf\x7b\\large " ++ company ++ "\x7d \\hfill " ++ location
  let role_line := "\\textit\x7b" ++ role ++ "\x7d \\hfill " ++ dates
  "\\item\n    \n " ++ company_line ++ " \\ \\vspace\x7b-2pt\x7d\n    \n "
    ++ role_line ++ " \\\\ \n    " ++ projects_section ++ "\n    "

/-- `format_project` from src/latex_formatter.py lines 95-124. -/
def format_project (name technologies dates description : String) : String :=
  let name := escape_latex name
  let technologies := escape_latex technologies
  let dates := escape_latex dates
  let description := escape_latex description
  let bullets := pySplit '\n' (pyStrip description)
  let bullet_points := String.intercalate "\n" (bullets.filterMap (fun bullet =>
    if pyStrip bullet ≠ "" then
      some ("\\resumeItem\x7b" ++ escape_latex (pyStrip bullet) ++ "\x7d")
    else none))
  "\\resumeSubheading\n        \x7b" ++ name ++ "\x7d\n        \x7b" ++ dates
    ++ "\x7d\n        \x7b" ++ technologies ++ "\x7d\n        \x7b\x7d\n        \\resumeItemListStart\n        "
    ++ bullet_points ++ "\n        \\resumeItemListEnd\n    "

/-- `format_education` from src/latex_formatter.py lines 126-150. -/
def format_education (school degree dates : String)
    (location gpa : Option String) : String :=
  let school := escape_latex school
  let degree := escape_latex degree
  let dates := escape_latex dates
  let location' := if truthy location then escape_latex (location.getD "") else ""
  let gpa' := if truthy gpa then "GPA " ++ escape_latex (gpa.getD "") else ""
  let parts := [degree, "\\textbf\x7b" ++ school ++ "\x7d"]
  let parts := if location' ≠ "" then parts ++ [location'] else parts
  let parts := if gpa' ≠ "" then parts ++ [gpa'] else parts
  let parts := parts ++ [dates]
  let education_line := String.intercalate " $|$ " (parts.filter (· ≠ ""))
  "\\vspace\x7b0pt\x7d\\item\n" ++ education_line ++ "\\vspace\x7b-6pt\x7d\n"

/-- `format_publications` from src/latex_formatter.py lines 152-172. -/
def format_publications (publications : List String) : String :=
  if publications.isEmpty then ""
  else
    let publications_items := publications.map (fun pub => "\\item " ++ pub)
    "\n\\section\x7bPublications\x7d\n\\begin\x7benumerate\x7d\n"
      ++ String.intercalate "\n" publications_items ++ "\n\\end\x7benumerate\x7d"

/-- `format_contact_links` from src/latex_formatter.py lines 174-193. -/
def format_contact_links (github portfolio linkedin : Option String) : String :=
  let s := ""
  let s := if truthy github then
      s ++ "$|$ \\faIcon\x7bgithub\x7d \\href\x7b" ++ github.getD "" ++ "\x7d\x7bGitHub\x7d"
    else s
  let s := if truthy portfolio then
      s ++ "$|$ \\faIcon\x7bglobe\x7d \\href\x7b" ++ portfolio.getD "" ++ "\x7d\x7b"
        ++ portfolio.getD "" ++ "\x7d"
    else s
  if truthy linkedin then
    s ++ "$|$ \\faIcon\x7blinkedin\x7d \\href\x7b" ++ linkedin.getD "" ++ "\x7d\x7bLinkedIn\x7d"
  else s

/-- A certification dict; `name` and `issued` are read with subscripting
(KeyError when absent), `expires` with `.get`. -/
structure CertDict where
  name : Option String
  issued : Option String
  expires : Option String
deriving Repr, DecidableEq

/-- `format_certifications` from src/latex_formatter.py lines 195-207. -/
def format_certifications (certifications : List CertDict) :
    Except String String :=
  if certifications.isEmpty then Except.ok ""
  else do
    let cert_lines ← mapME (fun cert => do
      let name0 ← pyGet cert.name "name"
      let issued0 ← pyGet cert.issued "issued"
      let name := escape_latex name0
      let issued := escape_latex issued0
      let expires := if truthy cert.expires then escape_latex (cert.expires.getD "") else ""
      let date_range := if expires ≠ "" then issued ++ " - " ++ expires else issued
      let cert_line := if date_range ≠ "" then name ++ " \\hfill " ++ date_range else name
      pure ("\\item\n\n " ++ cert_line)) certifications
    Except.ok ("\\section\x7bCertifications\x7d\n\\resumeSubHeadingListStart\n"
      ++ String.intercalate "\n" cert_lines ++ "\n\\resumeSubHeadingListEnd")

/-! ## Refinement agents (src/llm_agents/content_optimizer.py)

The external text-generation service is an oracle
`svc : String → String → Except String String` mapping (system content,
user prompt) to a completion, or to an error when the service is
unreachable / erroring. -/

def POLISHER_SYSTEM_CONTENT : String :=
  "You are a professional resume writer specializing in content optimization. \n    Your goal is to make the content impactful, relevant, and professional."

def SUMMARY_FOCUS_POINTS : String :=
  "\n    1. Crafting a compelling narrative\n    2. Highlighting key professional identity\n    3. Emphasizing unique value proposition\n    4. Maintaining concise and impactful language\n    5. Ensuring relevance to career goals"

def SKILLS_FOCUS_POINTS : String :=
  "\n    1. Using industry-standard terminology\n    2. Organizing skills by relevance/importance\n    3. Including both technical and soft skills\n    4. Using clear and consistent formatting\n    5. Avoiding redundancy and outdated skills"

def EXPERIENCE_FOCUS_POINTS : String :=
  "\n    1. Using strong action verbs\n    2. Quantifying achievements where possible\n    3. Making each point impactful\n    4. Highlighting relevant responsibilities\n    5. Being concise and specific"

def JOB_SPECIFIC_SUMMARY_POINTS : String :=
  "\n    1. Aligning with job requirements\n    2. Emphasizing relevant expertise\n    3. Using industry-specific language\n    4. Highlighting key qualifications\n    5. Maintaining professional tone"

def JOB_SPECIFIC_SKILLS_POINTS : String :=
  "\n    1. Prioritizing required skills\n    2. Including job-specific keywords\n    3. Matching terminology from posting\n    4. Emphasizing relevant technologies\n    5. Balancing technical and soft skills"

def JOB_SPECIFIC_EXPERIENCE_POINTS : String :=
  "\n    1. Using strong action verbs\n    2. Quantifying achievements where possible\n    3. Highlighting relevant accomplishments\n    4. Using job-specific terminology\n    5. Being concise and impactful"

/-- `ContentPolisher._get_focus_points`. -/
def get_focus_points (content_type : String) (has_job_desc : Bool) : String :=
  if has_job_desc then
    if content_type = "summary" then JOB_SPECIFIC_SUMMARY_POINTS
    else if content_type = "skills" then JOB_SPECIFIC_SKILLS_POINTS
    else JOB_SPECIFIC_EXPERIENCE_POINTS
  else
    if content_type = "summary" then SUMMARY_FOCUS_POINTS
    else if content_type = "skills" then SKILLS_FOCUS_POINTS
    else EXPERIENCE_FOCUS_POINTS

/-- The user prompt assembled by `ContentPolisher.polish_content`
(template of `_get_prompt_template` with the sections substituted). -/
def polish_prompt (content content_type : String)
    (job_description critic_feedback : Option String) : String :=
  let focus_points := get_focus_points content_type (truthy job_description)
  let job_desc_section :=
    if truthy job_description then
      "Job Requirements:\n" ++ job_description.getD "" ++ "\n\n"
    else ""
  let feedback_section :=
    if truthy critic_feedback then
      "\nCritic's Feedback:\n" ++ critic_feedback.getD "" ++ "\n"
    else ""
  let context :=
    if truthy job_description || truthy critic_feedback then
      " based on the provided context"
    else ""
  "As a professional resume content optimizer, enhance the following "
    ++ content_type ++ context ++ ".\n        \n        " ++ job_desc_section
    ++ "\n        Content to Optimize:\n        " ++ content ++ "\n        "
    ++ feedback_section ++ "\n        Focus on:" ++ focus_points

def CRITIC_SYSTEM_CONTENT : String :=
  "You are a highly critical resume reviewer. \n    Your goal is to ensure the content is perfect for the target job and meets high professional standards."

def SUMMARY_EVALUATION_POINTS : String :=
  "\n    1. Clarity of professional identity\n    2. Impact and engagement\n    3. Relevance to career goals\n    4. Professional tone\n    5. Conciseness and focus"

def SKILLS_EVALUATION_POINTS : String :=
  "\n    1. Relevance and currency of skills\n    2. Organization and clarity\n    3. Technical accuracy\n    4. Breadth and depth balance\n    5. Format consistency"

def EXPERIENCE_EVALUATION_POINTS : String :=
  "\n    1. Impact of achievements\n    2. Use of action verbs\n    3. Quantification of results\n    4. Clarity and conciseness\n    5. Professional tone"

def CRITIC_JOB_SUMMARY_POINTS : String :=
  "\n    1. Alignment with job requirements\n    2. Emphasis on relevant expertise\n    3. Use of industry terminology\n    4. Professional tone\n    5. Overall impact and relevance"

def CRITIC_JOB_SKILLS_POINTS : String :=
  "\n    1. Coverage of required skills\n    2. Use of job-specific keywords\n    3. Relevance to position\n    4. Technical accuracy\n    5. Organization and clarity"

def CRITIC_JOB_EXPERIENCE_POINTS : String :=
  "\n    1. Relevance to job requirements\n    2. Impact of achievements\n    3. Use of industry terminology\n    4. Quantification of results\n    5. Overall effectiveness"

/-- `ContentCritic._get_evaluation_points`. -/
def get_evaluation_points (content_type : String) (has_job_desc : Bool) : String :=
  if has_job_desc then
    if content_type = "summary" then CRITIC_JOB_SUMMARY_POINTS
    else if content_type = "skills" then CRITIC_JOB_SKILLS_POINTS
    else CRITIC_JOB_EXPERIENCE_POINTS
  else
    if content_type = "summary" then SUMMARY_EVALUATION_POINTS
    else if content_type = "skills" then SKILLS_EVALUATION_POINTS
    else EXPERIENCE_EVALUATION_POINTS

/-- The user prompt assembled by `ContentCritic.evaluate_content`. -/
def evaluate_prompt (original optimized content_type : String)
    (job_description : Option String) : String :=
  let evaluation_points := get_evaluation_points content_type (truthy job_description)
  let job_context := if truthy job_description then " and job requirements" else ""
  let job_desc_section :=
    if truthy job_description then
      "Job Requirements:\n" ++ job_description.getD "" ++ "\n\n"
    else ""
  "As a critical resume reviewer, evaluate the optimized " ++ content_type
    ++ " against the original" ++ job_context ++ ".\n        \n        "
    ++ job_desc_section ++ "\n        Original Content:\n        " ++ original
    ++ "\n        \n        Optimized Content:\n        " ++ optimized
    ++ "\n        \n        Evaluate based on:" ++ evaluation_points
    ++ "\n        \n        Provide specific, actionable feedback for improvement.\n        Be clear about what needs to be changed and how.\n        End your response with either SATISFIED or NEEDS_IMPROVEMENT on a new line."

/-- The last two statements of `ContentCritic.evaluate_content`
(content_optimizer.py lines 242-243), applied to the service's response
text: `is_satisfied = "SATISFIED" in feedback.split('\n')[-1]` and
`return is_satisfied, feedback`. -/
def evaluate_content_verdict (feedback : String) : Bool × String :=
  (pyIn "SATISFIED" (lastLineOf feedback), feedback)

/-- `ContentCritic.evaluate_content` driven by the service oracle. -/
def evaluate_content (svc : String → String → Except String String)
    (original optimized content_type : String) (job_description : Option String) :
    Except String (Bool × String) := do
  let feedback ← svc CRITIC_SYSTEM_CONTENT
    (evaluate_prompt original optimized content_type job_description)
  pure (evaluate_content_verdict feedback)

/-! ## The convergence loop (`ContentOptimizer.optimize_content`,
content_optimizer.py lines 266-305)

Two embeddings of the same `while` loop:

* `optimize_content` abstracts the two agents as total oracle functions of
  the round index and their source-level arguments, and additionally
  returns the trace of rounds, so that properties quantifying over every
  agent behavior can be stated;
* `optimize_content_svc` drives the agents through the service oracle with
  the faithful prompts, propagating service errors, as the callers in
  `resume_generator.py` and `tests/test_content_optimizer.py` observe it.

The loop variable correspondence: fuel `= max_rounds - current_round`;
the loop body runs while `current_round < max_rounds`, i.e. while fuel is
positive. -/

/-- One round of the loop as recorded in a trace: the polisher's input
content and carried feedback, its output, and the critic's verdict. -/
structure RoundLog where
  polishInput : String
  polishFeedback : Option String
  polishOutput : String
  satisfied : Bool
  feedback : String
deriving Repr, DecidableEq

def optimizeLoop (polish : Nat → String → Option String → String)
    (critic : Nat → String → String → Bool × String) (content : String) :
    Nat → Nat → String → Option String → String × List RoundLog
  | 0, _, optimized, _ => (optimized, [])
  | fuel + 1, round, optimized, prevFb =>
      let input := if round = 0 then content else optimized
      let out := polish round input prevFb
      let res := critic round content out
      if res.1 then (out, [⟨input, prevFb, out, true, res.2⟩])
      else
        let rest := optimizeLoop polish critic content fuel (round + 1) out (some res.2)
        (rest.1, ⟨input, prevFb, out, false, res.2⟩ :: rest.2)

/-- `ContentOptimizer.optimize_content` with the polisher and critic as
oracles: result together with the round trace. -/
def optimize_content (max_rounds : Nat)
    (polish : Nat → String → Option String → String)
    (critic : Nat → String → String → Bool × String)
    (content : String) : String × List RoundLog :=
  optimizeLoop polish critic content max_rounds 0 content none

def optimizeLoopE (svc : String → String → Except String String)
    (content content_type : String) (job_description : Option String) :
    Nat → Nat → String → Option String → Except String String
  | 0, _, optimized, _ => Except.ok optimized
  | fuel + 1, round, optimized, prevFb => do
      let input := if round = 0 then content else optimized
      let out ← svc POLISHER_SYSTEM_CONTENT
        (polish_prompt input content_type job_description prevFb)
      let fb ← svc CRITIC_SYSTEM_CONTENT
        (evaluate_prompt content out content_type job_description)
      let v := evaluate_content_verdict fb
      if v.1 then pure out
      else optimizeLoopE svc content content_type job_description fuel (round + 1) out (some v.2)

/-- `ContentOptimizer.optimize_content` driven by the service oracle;
a service error anywhere propagates as an exception. -/
def optimize_content_svc (svc : String → String → Except String String)
    (max_rounds : Nat) (content content_type : String)
    (job_description : Option String) : Except String String :=
  optimizeLoopE svc content content_type job_description max_rounds 0 content none

/-! ## The bulk-experiment driver (tests/test_content_optimizer.py) -/

/-- `ContentOptimizerExperiment.optimize_content` (lines 36-56): run the
optimizer (its `ContentOptimizer` keeps the default `max_rounds = 3`) and
fall back to the original content on any exception. -/
def experiment_optimize_content (svc : String → String → Except String String)
    (content content_type : String) (job_description : Option String) : String :=
  match optimize_content_svc svc 3 content content_type job_description with
  | Except.ok s => s
  | Except.error _ => content

/-- One CSV row of the experiment input; `projects` is `none` when the
cell is NaN (the `pd.notna` check). -/
structure ExperimentRow where
  summary : String
  skills : String
  work_experience : String
  projects : Option String
  job_description : String
deriving Repr, DecidableEq

/-- The optimized columns the experiment writes for one row. -/
structure OptimizedRow where
  optimized_summary : String
  optimized_skills : String
  optimized_work_experience : String
  optimized_projects : Option String
deriving Repr, DecidableEq

/-- The per-row body of `ContentOptimizerExperiment.run_experiment`
(lines 70-97). -/
def process_row (svc : String → String → Except String String)
    (row : ExperimentRow) : OptimizedRow :=
  { optimized_summary :=
      experiment_optimize_content svc row.summary "summary" (some row.job_description)
    optimized_skills :=
      experiment_optimize_content svc row.skills "skills" (some row.job_description)
    optimized_work_experience :=
      experiment_optimize_content svc row.work_experience "experience" (some row.job_description)
    optimized_projects := row.projects.map (fun p =>
      experiment_optimize_content svc p "projects" (some row.job_description)) }

/-- `ContentOptimizerExperiment.run_experiment`: every row is processed;
no exception escapes a row. -/
def run_experiment (svc : String → String → Except String String)
    (rows : List ExperimentRow) : List OptimizedRow :=
  rows.map (process_row svc)

/-! ## The quality gate (`ResumeQualityChecker.check_resume`,
src/llm_agents/resume_checker.py lines 27-97) -/

def CHECKER_SYSTEM_CONTENT : String :=
  "You are a professional resume quality control specialist.\n    Your goal is to ensure the resume meets professional standards, is properly formatted,\n    and fits within acceptable length limits."

def CHECKER_PROMPT_PRE : String :=
  "Review the following LaTeX resume content for quality and provide detailed feedback.\n\nContent to Review:\n"

def CHECKER_PROMPT_POST : String :=
  "\n\nAnalyze the following aspects:\n1. Length Estimation:\n   - Estimate the number of pages based on content volume\n   - Suggest specific content to trim if exceeds 2 pages\n   - Consider LaTeX formatting and spacing\n\n2. Formatting and Structure:\n   - Check for LaTeX syntax errors or typos\n   - Verify proper use of sections and environments\n   - Check for consistent formatting\n\n3. Professional Standards:\n   - Identify any unprofessional content or phrasing\n   - Check for appropriate tone and language\n   - Verify consistent tense usage\n\n4. Content Organization:\n   - Evaluate section ordering and hierarchy\n   - Check for redundant information\n   - Verify proper use of bullet points\n\nProvide your response in the following format:\nESTIMATED_PAGES: [number]\nAPPROVED: [YES/NO]\nFEEDBACK: [general feedback]\nSUGGESTED_CHANGES:\n- [change 1]\n- [change 2]\n...etc"

/-- The prompt `check_resume` sends, with the content slot substituted. -/
def checker_prompt (content : String) : String :=
  CHECKER_PROMPT_PRE ++ content ++ CHECKER_PROMPT_POST

/-- `QualityCheckResult` dataclass; `estimated_pages` (a Python float
produced from a simple decimal token or the literal 1.0) is modelled
exactly as a rational. -/
structure QualityCheckResult where
  is_approved : Bool
  feedback : String
  suggested_changes : List String
  estimated_pages : ℚ
deriving Repr, DecidableEq

/-- Longest digit run at the head of the list, and the remainder. -/
def takeDigits : List Char → List Char × List Char
  | [] => ([], [])
  | c :: t =>
      if c.isDigit then
        let p := takeDigits t
        (c :: p.1, p.2)
      else ([], c :: t)

/-- The match of the regex `\d+(\.\d+)?` anchored at a position whose
first character is a digit: greedy digits, then optionally a dot followed
by at least one digit. -/
def numericTokenHere (l : List Char) : List Char :=
  let p := takeDigits l
  match p.2 with
  | '.' :: r2 =>
      let q := takeDigits r2
      if q.1 = [] then p.1 else p.1 ++ '.' :: q.1
  | _ => p.1

/-- `re.search(r'\d+(\.\d+)?', s)`: the first (leftmost) match. -/
def findNumericToken : List Char → Option (List Char)
  | [] => none
  | c :: t =>
      if c.isDigit then some (numericTokenHere (c :: t))
      else findNumericToken t

def digitsVal (l : List Char) : ℚ :=
  ((l.foldl (fun n c => 10 * n + (c.toNat - 48)) 0 : Nat) : ℚ)

/-- `float(tok)` for a token matched by `\d+(\.\d+)?`. -/
def ratOfToken (tok : List Char) : ℚ :=
  let p := takeDigits tok
  match p.2 with
  | '.' :: frac => digitsVal p.1 + digitsVal frac / (10 : ℚ) ^ frac.length
  | _ => digitsVal p.1

/-- The response-parsing half of `check_resume` (resume_checker.py lines
75-97).  `next(...)` over a filtered generator raises `StopIteration`
when no line matches. -/
def parse_quality_response (response : String) :
    Except String QualityCheckResult := do
  let lines := pySplit '\n' response
  let pagesLine ← match lines.find? (fun l => pyStartsWith "ESTIMATED_PAGES:" l) with
    | some l => Except.ok l
    | none => Except.error "StopIteration"
  let pages_str := pyStrip ((pySplit ':' pagesLine).getD 1 "")
  let estimated_pages : ℚ :=
    match findNumericToken pages_str.data with
    | some tok => ratOfToken tok
    | none => 1
  let approvedLine ← match lines.find? (fun l => pyStartsWith "APPROVED:" l) with
    | some l => Except.ok l
    | none => Except.error "StopIteration"
  let is_approved := pyIn "YES" (pyStrip ((pySplit ':' approvedLine).getD 1 ""))
  let feedback_start := pyFind response "FEEDBACK:" + 9
  let changes_start := pyFind response "SUGGESTED_CHANGES:"
  let feedback := pyStrip (pySlice response feedback_start changes_start)
  let changes_section :=
    (pySplit '\n' (pySlice response changes_start (response.data.length : Int))).drop 1
  let suggested_changes := changes_section.filterMap (fun change =>
    if pyStartsWith "-" (pyStrip change) then
      some (pyStrip (pyStripChars ['-', ' '] change))
    else none)
  Except.ok ⟨is_approved, feedback, suggested_changes, estimated_pages⟩

/-- `ResumeQualityChecker.check_resume`: call the service, parse. -/
def check_resume (svc : String → String → Except String String)
    (latex_content : String) : Except String QualityCheckResult := do
  let response ← svc CHECKER_SYSTEM_CONTENT (checker_prompt latex_content)
  parse_quality_response response

/-- The APPROVED field of a quality-gate response as the spec describes
it: the text between the first and second colon of the first line starting
with `APPROVED:`, stripped (used to state what the approval flag is
compared against). -/
def approvedFieldOf (response : String) : Option String :=
  ((pySplit '\n' response).find? (fun l => pyStartsWith "APPROVED:" l)).map
    (fun l => pyStrip ((pySplit ':' l).getD 1 ""))

/-! ## `ResumeGenerator.generate_latex` (src/resume_generator.py lines 56-166) -/

/-- An experience entry of `data['experience']`: `company`, `role`,
`dates`, `location` are subscripted (KeyError when absent), `projects` is
read with `.get('projects', [])`. -/
structure ExpDict where
  company : Option String
  role : Option String
  dates : Option String
  location : Option String
  projects : Option (List ProjDict)
deriving Repr, DecidableEq

/-- A standalone entry of `data['projects']`; all four fields are
subscripted. -/
structure ProjEntryDict where
  name : Option String
  technologies : Option String
  dates : Option String
  description : Option String
deriving Repr, DecidableEq

/-- An entry of `data['education']`; `school`, `degree`, `dates`,
`location` are subscripted, `gpa` is read with `.get`. -/
structure EduDict where
  school : Option String
  degree : Option String
  dates : Option String
  location : Option String
  gpa : Option String
deriving Repr, DecidableEq

/-- The `data` dict passed to `generate_latex`; every key the source may
subscript or `.get` is a field, `none` modelling an absent key. -/
structure ResumeData where
  name : Option String
  email : Option String
  phone : Option String
  location : Option String
  linkedin : Option String
  summary : Option String
  skills : Option String
  experience : Option (List ExpDict)
  projects : Option (List ProjEntryDict)
  education : Option (List EduDict)
  certifications : Option (List CertDict)
  publications : Option (List String)
  github : Option String
  portfolio : Option String
deriving Repr, DecidableEq

/-- The body of the experience loop at resume_generator.py lines 90-97:
subscript the four identity fields (KeyError when one is absent), read
`projects` with a default, and format. -/
def format_experience_entry (exp : ExpDict) : Except String String := do
  let c ← pyGet exp.company "company"
  let r ← pyGet exp.role "role"
  let d ← pyGet exp.dates "dates"
  let l ← pyGet exp.location "location"
  pure (format_experience c r d l (exp.projects.getD []))

/-- The experience loop of `generate_latex` (lines 88-97): one appended
fragment per record, an exception aborting the whole loop. -/
def format_experience_entries (exps : List ExpDict) : Except String (List String) :=
  mapME format_experience_entry exps

/-- The template file read by `_read_template`, abstracted (per the
template boundary of the design) as literal text interleaved with named
substitution slots. -/
inductive TemplatePiece where
  | lit (s : String)
  | slot (key : String)
deriving Repr, DecidableEq

/-- Python `template.format(**kwargs)` over the abstract template: each
slot is replaced by its keyword argument; an unknown slot name raises
`KeyError`. -/
def renderTemplate (tpl : List TemplatePiece) (kwargs : List (String × String)) :
    Except String String := do
  let pieces ← mapME (fun p =>
    match p with
    | TemplatePiece.lit s => Except.ok s
    | TemplatePiece.slot k =>
        match kwargs.lookup k with
        | some v => Except.ok v
        | none => Except.error ("KeyError: " ++ k)) tpl
  pure (String.join pieces)

/-- Python argument binding for
`ContentOptimizer.optimize_content(self, content, content_type="experience",
job_description=None)` called with positional arguments `pos` and possibly
a `content_type=` keyword argument.  Binding a keyword to a parameter that
a positional argument already filled is a `TypeError`, raised before the
function body runs. -/
def bindOptimizeCall (pos : List String) (kwContentType : Option String) :
    Except String (String × String × Option String) :=
  match pos, kwContentType with
  | [content], none => Except.ok (content, "experience", none)
  | [content], some ct => Except.ok (content, ct, none)
  | [content, ct], none => Except.ok (content, ct, none)
  | [_, _], some _ =>
      Except.error "TypeError: optimize_content() got multiple values for argument 'content_type'"
  | _, _ => Except.error "TypeError: optimize_content() wrong number of arguments"

/-- The call `self.optimizer.optimize_content(content_value, job_description,
content_type=ct)` as written at resume_generator.py lines 75, 82 and 106:
two positional arguments plus the `content_type` keyword, then (were
binding to succeed) the optimizer body. -/
def generatorOptimizeCall (svc : String → String → Except String String)
    (max_rounds : Nat) (content_value jd_value : String) (ct : String) :
    Except String String := do
  let args ← bindOptimizeCall [content_value, jd_value] (some ct)
  optimize_content_svc svc max_rounds args.1 args.2.1 args.2.2

/-- The keyword arguments `generate_latex` passes to `template.format`,
computed in source order; any exception propagates. -/
def generateKwargs (svc : String → String → Except String String)
    (max_rounds : Nat) (data : ResumeData) (job_description : Option String)
    (optimizeFlag : Bool) : Except String (List (String × String)) := do
  let additional_links := format_contact_links data.github data.portfolio none
  let summary ←
    if optimizeFlag && truthy job_description then do
      let s ← pyGet data.summary "summary"
      generatorOptimizeCall svc max_rounds s (job_description.getD "") "summary"
    else pyGet data.summary "summary"
  let summary := escape_latex summary
  let skills_text ←
    if optimizeFlag && truthy job_description then do
      let s ← pyGet data.skills "skills"
      generatorOptimizeCall svc max_rounds s (job_description.getD "") "skills"
    else pyGet data.skills "skills"
  let skills := format_skills skills_text
  let exps ← pyGet data.experience "experience"
  let experiences ← format_experience_entries exps
  let projects_section ←
    if !(data.projects.getD []).isEmpty then do
      let formatted ← mapME (fun proj => do
        let description ←
          if optimizeFlag && truthy job_description then do
            let d ← pyGet proj.description "description"
            generatorOptimizeCall svc max_rounds d (job_description.getD "") "projects"
          else pyGet proj.description "description"
        let n ← pyGet proj.name "name"
        let t ← pyGet proj.technologies "technologies"
        let dt ← pyGet proj.dates "dates"
        pure (format_project n t dt description)) (data.projects.getD [])
      pure ("\n\\section\x7bProjects\x7d\n\\resumeSubHeadingListStart\n"
        ++ String.intercalate "\n" formatted ++ "\n\\resumeSubHeadingListEnd")
    else pure ""
  let edus ← pyGet data.education "education"
  let education ← mapME (fun edu => do
    let s ← pyGet edu.school "school"
    let dg ← pyGet edu.degree "degree"
    let dt ← pyGet edu.dates "dates"
    let l ← pyGet edu.location "location"
    pure (format_education s dg dt (some l) edu.gpa)) edus
  let certifications_section ← format_certifications (data.certifications.getD [])
  let publications_section :=
    format_publications ((data.publications.getD []).map escape_latex)
  let linkedin_url0 ← pyGet data.linkedin "linkedin"
  let linkedin_url :=
    if linkedin_url0 ≠ ""
        && !(pyStartsWith "http://" linkedin_url0 || pyStartsWith "https://" linkedin_url0) then
      "https://" ++ pyLstrip ['/', ' '] linkedin_url0
    else linkedin_url0
  let nm ← pyGet data.name "name"
  let em ← pyGet data.email "email"
  let ph ← pyGet data.phone "phone"
  let loc ← pyGet data.location "location"
  Except.ok [("name", nm), ("email", em), ("phone", ph), ("location", loc),
    ("linkedin", linkedin_url), ("additional_links", additional_links),
    ("summary", escape_latex summary), ("skills", skills),
    ("experience", String.intercalate "\n" experiences),
    ("projects", projects_section),
    ("education", String.intercalate "\n" education),
    ("certifications_section", certifications_section),
    ("publications_section", publications_section)]

/-- `ResumeGenerator.generate_latex`: assemble the document from the
template and the data, then run the quality gate when `optimizeFlag` is
set (the source checks `if optimize_content:` alone there). -/
def generate_latex (tpl : List TemplatePiece)
    (svc : String → String → Except String String) (max_rounds : Nat)
    (data : ResumeData) (job_description : Option String) (optimizeFlag : Bool) :
    Except String (String × Option QualityCheckResult) := do
  let kwargs ← generateKwargs svc max_rounds data job_description optimizeFlag
  let resume ← renderTemplate tpl kwargs
  let quality_result ←
    if optimizeFlag then do
      let q ← check_resume svc resume
      pure (some q)
    else pure (none : Option QualityCheckResult)
  pure (resume, quality_result)

/-! # Helper lemmas -/

theorem escapeList_append (l₁ l₂ : List Char) :
    escapeList (l₁ ++ l₂) = escapeList l₁ ++ escapeList l₂ := by
  induction l₁ with
  | nil => simp [escapeList]
  | cons c t ih => simp [escapeList, ih, String.append_assoc]

theorem exceptBind_ok {ε α β : Type} {m : Except ε α} {f : α → Except ε β} {r : β}
    (h : (m >>= f) = Except.ok r) : ∃ a, m = Except.ok a ∧ f a = Except.ok r := by
  cases m with
  | error e => simp [Bind.bind, Except.bind] at h
  | ok a => exact ⟨a, rfl, by simpa [Bind.bind, Except.bind] using h⟩

theorem optimizeLoop_head (p : Nat → String → Option String → String)
    (c : Nat → String → String → Bool × String) (content : String)
    (fuel : Nat) (hf : 0 < fuel) (round : Nat) (cur : String) (fb : Option String) :
    ∃ lg tl, (optimizeLoop p c content fuel round cur fb).2 = lg :: tl
      ∧ lg.polishInput = (if round = 0 then content else cur)
      ∧ lg.polishFeedback = fb
      ∧ lg.polishOutput = p round (if round = 0 then content else cur) fb := by
  cases fuel with
  | zero => omega
  | succ n =>
      simp only [optimizeLoop]
      generalize (if round = 0 then content else cur) = input
      split
      · exact ⟨_, _, rfl, rfl, rfl, rfl⟩
      · exact ⟨_, _, rfl, rfl, rfl, rfl⟩

theorem optimizeLoop_length_le (p : Nat → String → Option String → String)
    (c : Nat → String → String → Bool × String) (content : String)
    (fuel : Nat) : ∀ (round : Nat) (cur : String) (fb : Option String),
      (optimizeLoop p c content fuel round cur fb).2.length ≤ fuel := by
  induction fuel with
  | zero => intro round cur fb; simp [optimizeLoop]
  | succ n ih =>
      intro round cur fb
      simp only [optimizeLoop]
      generalize (if round = 0 then content else cur) = input
      split
      · simp
      · simpa using Nat.succ_le_succ (ih (round + 1) _ _)

theorem optimizeLoop_length_pos (p : Nat → String → Option String → String)
    (c : Nat → String → String → Bool × String) (content : String)
    (fuel : Nat) (hf : 0 < fuel) :
    ∀ (round : Nat) (cur : String) (fb : Option String),
      0 < (optimizeLoop p c content fuel round cur fb).2.length := by
  intro round cur fb
  obtain ⟨lg, tl, heq, -, -, -⟩ := optimizeLoop_head p c content fuel hf round cur fb
  simp [heq]

theorem optimizeLoop_result_getLast (p : Nat → String → Option String → String)
    (c : Nat → String → String → Bool × String) (content : String)
    (fuel : Nat) : ∀ (round : Nat) (cur : String) (fb : Option String), 0 < fuel →
    ∃ lg, (optimizeLoop p c content fuel round cur fb).2.getLast? = some lg
      ∧ (optimizeLoop p c content fuel round cur fb).1 = lg.polishOutput := by
  induction fuel with
  | zero => intro _ _ _ hf; omega
  | succ n ih =>
      intro round cur fb _
      simp only [optimizeLoop]
      generalize (if round = 0 then content else cur) = input
      split
      · exact ⟨_, rfl, rfl⟩
      · cases n with
        | zero => exact ⟨_, rfl, rfl⟩
        | succ m =>
            obtain ⟨lg, hlast, hres⟩ := ih (round + 1)
              (p round input fb) (some (c round content (p round input fb)).2) (by omega)
            refine ⟨lg, ?_, hres⟩
            obtain ⟨hd, tl, heq, -, -, -⟩ :=
              optimizeLoop_head p c content (m + 1) (by omega) (round + 1)
                (p round input fb) (some (c round content (p round input fb)).2)
            rw [heq] at hlast ⊢
            simpa [List.getLast?_cons_cons] using hlast

theorem optimizeLoop_always_unsat (p : Nat → String → Option String → String)
    (c : Nat → String → String → Bool × String) (content : String)
    (hc : ∀ n o s, (c n o s).1 = false)
    (fuel : Nat) : ∀ (round : Nat) (cur : String) (fb : Option String),
      (optimizeLoop p c content fuel round cur fb).2.length = fuel := by
  induction fuel with
  | zero => intro round cur fb; simp [optimizeLoop]
  | succ n ih =>
      intro round cur fb
      simp only [optimizeLoop]
      generalize (if round = 0 then content else cur) = input
      rw [if_neg (by simp [hc])]
      simpa using ih (round + 1) _ _

theorem optimizeLoop_result_is_polish (p : Nat → String → Option String → String)
    (c : Nat → String → String → Bool × String) (content : String)
    (fuel : Nat) : ∀ (round : Nat) (cur : String) (fb : Option String), 0 < fuel →
      ∃ m i f, (optimizeLoop p c content fuel round cur fb).1 = p m i f := by
  induction fuel with
  | zero => intro _ _ _ hf; omega
  | succ n ih =>
      intro round cur fb _
      simp only [optimizeLoop]
      generalize (if round = 0 then content else cur) = input
      split
      · exact ⟨_, _, _, rfl⟩
      · cases n with
        | zero => exact ⟨_, _, _, rfl⟩
        | succ m => simpa using ih (round + 1) _ _ (by omega)

theorem optimizeLoop_chain (p : Nat → String → Option String → String)
    (c : Nat → String → String → Bool × String) (content : String)
    (fuel : Nat) : ∀ (round : Nat) (cur : String) (fb : Option String)
      (i : Nat) (a b : RoundLog),
      (optimizeLoop p c content fuel round cur fb).2.get? i = some a →
      (optimizeLoop p c content fuel round cur fb).2.get? (i + 1) = some b →
      b.polishInput = a.polishOutput ∧ b.polishFeedback = some a.feedback
        ∧ a.satisfied = false := by
  induction fuel with
  | zero => intro round cur fb i a b ha hb; simp [optimizeLoop] at ha
  | succ n ih =>
      intro round cur fb i a b ha hb
      revert ha hb
      simp only [optimizeLoop]
      generalize (if round = 0 then content else cur) = input
      split
      · intro ha hb
        cases i <;> simp at hb
      · rename_i hsat
        rw [Bool.not_eq_true] at hsat
        cases i with
        | zero =>
            intro ha hb
            simp only [List.get?_cons_zero, Option.some.injEq] at ha
            simp only [List.get?_cons_succ] at hb
            have hn : 0 < n := by
              rcases Nat.eq_zero_or_pos n with h0 | h0
              · subst h0; simp [optimizeLoop] at hb
              · exact h0
            obtain ⟨hd, tl, heq, hin, hfb, hout⟩ :=
              optimizeLoop_head p c content n hn (round + 1)
                (p round input fb) (some (c round content (p round input fb)).2)
            rw [heq] at hb
            simp only [List.get?_cons_zero, Option.some.injEq] at hb
            subst ha hb
            refine ⟨?_, ?_, rfl⟩
            · rw [hin]; simp
            · rw [hfb]
        | succ j =>
            intro ha hb
            simp only [List.get?_cons_succ] at ha hb
            exact ih (round + 1) _ _ j a b ha hb

theorem optimizeLoop_satisfied_last (p : Nat → String → Option String → String)
    (c : Nat → String → String → Bool × String) (content : String)
    (fuel : Nat) : ∀ (round : Nat) (cur : String) (fb : Option String)
      (i : Nat) (a : RoundLog),
      (optimizeLoop p c content fuel round cur fb).2.get? i = some a →
      a.satisfied = true →
      i = (optimizeLoop p c content fuel round cur fb).2.length - 1
        ∧ (optimizeLoop p c content fuel round cur fb).1 = a.polishOutput := by
  induction fuel with
  | zero => intro round cur fb i a ha hs; simp [optimizeLoop] at ha
  | succ n ih =>
      intro round cur fb i a ha hs
      revert ha
      simp only [optimizeLoop]
      generalize (if round = 0 then content else cur) = input
      split
      · intro ha
        cases i with
        | zero =>
            simp only [List.get?_cons_zero, Option.some.injEq] at ha
            subst ha
            simp
        | succ j => simp at ha
      · rename_i hsat
        rw [Bool.not_eq_true] at hsat
        cases i with
        | zero =>
            intro ha
            simp only [List.get?_cons_zero, Option.some.injEq] at ha
            subst ha
            simp at hs
        | succ j =>
            intro ha
            simp only [List.get?_cons_succ] at ha
            obtain ⟨hj, hres⟩ := ih (round + 1) _ _ j a ha hs
            have hlen : 0 < (optimizeLoop p c content n (round + 1) (p round input fb)
                (some (c round content (p round input fb)).2)).2.length := by
              rcases Nat.eq_zero_or_pos ((optimizeLoop p c content n (round + 1)
                  (p round input fb)
                  (some (c round content (p round input fb)).2)).2.length) with h0 | h0
              · rw [List.length_eq_zero] at h0; rw [h0] at ha; simp at ha
              · exact h0
            constructor
            · simp only [List.length_cons]
              omega
            · simpa using hres

/-! # Claim theorems -/

/-- C1 counterexample: with `max_rounds = 3 ≥ 1` and a Rewriter whose
every completion is the empty string (and an always-unsatisfied
Evaluator), `ContentOptimizer.optimize_content` returns empty content,
although the original content was non-empty — so the loop does not
guarantee "returns non-empty content" for every behavior of the agents. -/
theorem C1_counterexample :
    (optimize_content 3 (fun _ _ _ => "") (fun _ _ _ => (false, "feedback"))
      "original").1 = ""
    ∧ ("original" : String) ≠ "" := by
  exact ⟨rfl, by decide⟩

/-- C1 (amended): for every `max_rounds ≥ 1` and every behavior of the
Rewriter and Evaluator, the loop terminates after at most `max_rounds`
Rewriter calls and returns the latest Rewriter candidate; if the Evaluator
reports unsatisfied on every round, it makes exactly `max_rounds` rounds
and then stops exhausted; the result is non-empty whenever the Rewriter
never returns empty text (but not unconditionally). -/
theorem C1_loop_bound (max_rounds : Nat) (hmr : 1 ≤ max_rounds)
    (polish : Nat → String → Option String → String)
    (critic : Nat → String → String → Bool × String) (content : String) :
    (optimize_content max_rounds polish critic content).2.length ≤ max_rounds
    ∧ 0 < (optimize_content max_rounds polish critic content).2.length
    ∧ (∃ lg, (optimize_content max_rounds polish critic content).2.getLast? = some lg
        ∧ (optimize_content max_rounds polish critic content).1 = lg.polishOutput)
    ∧ ((∀ n o s, (critic n o s).1 = false) →
        (optimize_content max_rounds polish critic content).2.length = max_rounds)
    ∧ ((∀ n i f, polish n i f ≠ "") →
        (optimize_content max_rounds polish critic content).1 ≠ "") := by
  refine ⟨?_, ?_, ?_, ?_, ?_⟩
  · exact optimizeLoop_length_le polish critic content max_rounds 0 content none
  · exact optimizeLoop_length_pos polish critic content max_rounds (by omega) 0 content none
  · exact optimizeLoop_result_getLast polish critic content max_rounds 0 content none (by omega)
  · intro hc
    exact optimizeLoop_always_unsat polish critic content hc max_rounds 0 content none
  · intro hp
    obtain ⟨m, i, f, hres⟩ :=
      optimizeLoop_result_is_polish polish critic content max_rounds 0 content none (by omega)
    rw [optimize_content, hres]
    exact hp m i f

/-- Witness for C1_loop_bound at `max_rounds = 1` with a Rewriter that
always returns "X": the result is non-empty. -/
theorem C1_loop_bound_witness :
    (optimize_content 1 (fun _ _ _ => "X") (fun _ _ _ => (false, "F")) "c").1 ≠ "" :=
  (C1_loop_bound 1 (by decide) (fun _ _ _ => "X") (fun _ _ _ => (false, "F"))
    "c").2.2.2.2 (fun _ _ _ => by decide)

/-- C7: in every execution of the convergence loop, the first round's
Rewriter input is the original content with no feedback; on every later
round the Rewriter input is the previous round's candidate and the carried
feedback is the previous round's Evaluator feedback, carried only after an
unsatisfied verdict; and a satisfied verdict ends the loop (it occurs only
at the last recorded round) with the latest candidate returned. -/
theorem C7_dataflow (max_rounds : Nat)
    (polish : Nat → String → Option String → String)
    (critic : Nat → String → String → Bool × String) (content : String) :
    (∀ a tl, (optimize_content max_rounds polish critic content).2 = a :: tl →
        a.polishInput = content ∧ a.polishFeedback = none)
    ∧ (∀ i a b,
        (optimize_content max_rounds polish critic content).2.get? i = some a →
        (optimize_content max_rounds polish critic content).2.get? (i + 1) = some b →
        b.polishInput = a.polishOutput ∧ b.polishFeedback = some a.feedback
          ∧ a.satisfied = false)
    ∧ (∀ i a,
        (optimize_content max_rounds polish critic content).2.get? i = some a →
        a.satisfied = true →
        i = (optimize_content max_rounds polish critic content).2.length - 1
          ∧ (optimize_content max_rounds polish critic content).1 = a.polishOutput) := by
  refine ⟨?_, ?_, ?_⟩
  · intro a tl heq
    have hf : 0 < max_rounds := by
      have hle := optimizeLoop_length_le polish critic content max_rounds 0 content none
      rw [optimize_content] at heq
      rw [heq] at hle
      simp at hle
      omega
    obtain ⟨lg, tl', heq', hin, hfb, -⟩ :=
      optimizeLoop_head polish critic content max_rounds hf 0 content none
    rw [optimize_content] at heq
    rw [heq] at heq'
    injection heq' with h1 h2
    subst h1
    simp at hin
    exact ⟨hin, hfb⟩
  · intro i a b ha hb
    exact optimizeLoop_chain polish critic content max_rounds 0 content none i a b ha hb
  · intro i a ha hs
    exact optimizeLoop_satisfied_last polish critic content max_rounds 0 content none i a ha hs

/-- Witness for C7_dataflow: a two-round run where the second round's
recorded Rewriter input "A" is exactly the first round's candidate. -/
theorem C7_dataflow_witness :
    (⟨"A", some "F", "B", false, "F"⟩ : RoundLog).polishInput
      = (⟨"orig", none, "A", false, "F"⟩ : RoundLog).polishOutput :=
  ((C7_dataflow 2 (fun n _ _ => if n = 0 then "A" else "B")
      (fun _ _ _ => (false, "F")) "orig").2.1 0
    ⟨"orig", none, "A", false, "F"⟩ ⟨"A", some "F", "B", false, "F"⟩ rfl rfl).1

/-- C8: the critic's `satisfied` boolean is a deterministic function of
the response's final line (true when the reserved verdict word SATISFIED
ends the response, false when NEEDS_IMPROVEMENT does), and the full
free-form feedback text is always returned to the caller unchanged. -/
theorem C8_verdict :
    (∀ feedback : String, (evaluate_content_verdict feedback).2 = feedback)
    ∧ (∀ fb fb' : String, lastLineOf fb = lastLineOf fb' →
        (evaluate_content_verdict fb).1 = (evaluate_content_verdict fb').1)
    ∧ (∀ fb : String, lastLineOf fb = "SATISFIED" →
        (evaluate_content_verdict fb).1 = true)
    ∧ (∀ fb : String, lastLineOf fb = "NEEDS_IMPROVEMENT" →
        (evaluate_content_verdict fb).1 = false)
    ∧ (∀ (svc : String → String → Except String String) orig opt ct jd fb,
        svc CRITIC_SYSTEM_CONTENT (evaluate_prompt orig opt ct jd) = Except.ok fb →
        evaluate_content svc orig opt ct jd = Except.ok (evaluate_content_verdict fb)) := by
  refine ⟨fun _ => rfl, ?_, ?_, ?_, ?_⟩
  · intro fb fb' h
    simp only [evaluate_content_verdict, h]
  · intro fb h
    simp only [evaluate_content_verdict, h]
    decide
  · intro fb h
    simp only [evaluate_content_verdict, h]
    decide
  · intro svc orig opt ct jd fb h
    simp [evaluate_content, h]

/-- Witness for C8_verdict: a response ending in NEEDS_IMPROVEMENT is not
satisfied. -/
theorem C8_verdict_witness :
    (evaluate_content_verdict "tighten the summary\nNEEDS_IMPROVEMENT").1 = false :=
  C8_verdict.2.2.2.1 "tighten the summary\nNEEDS_IMPROVEMENT" (by decide)

theorem parse_ok_of_lines (response : String) (l1 l2 : String)
    (h1 : (pySplit '\n' response).find? (fun l => pyStartsWith "ESTIMATED_PAGES:" l) = some l1)
    (h2 : (pySplit '\n' response).find? (fun l => pyStartsWith "APPROVED:" l) = some l2) :
    parse_quality_response response = Except.ok
      ⟨pyIn "YES" (pyStrip ((pySplit ':' l2).getD 1 "")),
       pyStrip (pySlice response (pyFind response "FEEDBACK:" + 9) (pyFind response "SUGGESTED_CHANGES:")),
       ((pySplit '\n' (pySlice response (pyFind response "SUGGESTED_CHANGES:") (response.data.length : Int))).drop 1).filterMap
         (fun change => if pyStartsWith "-" (pyStrip change) then some (pyStrip (pyStripChars ['-', ' '] change)) else none),
       match findNumericToken (pyStrip ((pySplit ':' l1).getD 1 "")).data with
       | some tok => ratOfToken tok
       | none => 1⟩ := by
  simp [parse_quality_response, h1, h2, Bind.bind, Except.bind]

theorem parse_ok_inv (response : String) (r : QualityCheckResult)
    (h : parse_quality_response response = Except.ok r) :
    ∃ l1 l2,
      (pySplit '\n' response).find? (fun l => pyStartsWith "ESTIMATED_PAGES:" l) = some l1
      ∧ (pySplit '\n' response).find? (fun l => pyStartsWith "APPROVED:" l) = some l2
      ∧ r.is_approved = pyIn "YES" (pyStrip ((pySplit ':' l2).getD 1 "")) := by
  cases hf1 : (pySplit '\n' response).find? (fun l => pyStartsWith "ESTIMATED_PAGES:" l) with
  | none =>
      rw [parse_quality_response] at h
      simp [hf1, Bind.bind, Except.bind] at h
  | some l1 =>
      cases hf2 : (pySplit '\n' response).find? (fun l => pyStartsWith "APPROVED:" l) with
      | none =>
          rw [parse_quality_response] at h
          simp [hf1, hf2, Bind.bind, Except.bind] at h
      | some l2 =>
          refine ⟨l1, l2, rfl, rfl, ?_⟩
          rw [parse_ok_of_lines response l1 l2 hf1 hf2] at h
          injection h with h'
          rw [← h']

/-- C3 counterexample: on a response with no `ESTIMATED_PAGES:` line the
parser of `check_resume` raises `StopIteration` instead of applying a
default — a missing expected field is fatal, so `check_resume` does not
return a result for every response text. -/
theorem C3_counterexample :
    parse_quality_response "hello there" = Except.error "StopIteration"
    ∧ check_resume (fun _ _ => Except.ok "hello there") "doc"
        = Except.error "StopIteration" := ⟨rfl, rfl⟩

/-- C3 (amended): for every response that does contain an
`ESTIMATED_PAGES:` line and an `APPROVED:` line, `check_resume` parses
without failing; the estimated length is the first numeric token of the
field even when embedded in surrounding text (`ESTIMATED_PAGES: 1.5
pages` gives 1.5) and defaults to 1.0 when no numeric token is found; a
missing FEEDBACK or SUGGESTED_CHANGES field is not fatal (both concrete
responses below lack them).  A response missing one of the two `next(...)`
fields, however, fails with StopIteration. -/
theorem C3_parse_tolerance :
    (∀ response : String,
      ((pySplit '\n' response).find? (fun l => pyStartsWith "ESTIMATED_PAGES:" l)).isSome →
      ((pySplit '\n' response).find? (fun l => pyStartsWith "APPROVED:" l)).isSome →
      ∃ r, parse_quality_response response = Except.ok r)
    ∧ (∃ r, parse_quality_response "ESTIMATED_PAGES: 1.5 pages\nAPPROVED: YES"
        = Except.ok r ∧ r.estimated_pages = 3/2)
    ∧ (∃ r, parse_quality_response "ESTIMATED_PAGES: about one page\nAPPROVED: YES"
        = Except.ok r ∧ r.estimated_pages = 1) := by
  refine ⟨?_, ?_, ?_⟩
  · intro response h1 h2
    obtain ⟨l1, hl1⟩ := Option.isSome_iff_exists.mp h1
    obtain ⟨l2, hl2⟩ := Option.isSome_iff_exists.mp h2
    exact ⟨_, parse_ok_of_lines response l1 l2 hl1 hl2⟩
  · refine ⟨⟨true, "D_PAGES: 1.5 pages\nAPPROVED: YE", [], ratOfToken ['1','.','5']⟩, by rfl, ?_⟩
    show ratOfToken ['1','.','5'] = 3/2
    simp [ratOfToken, takeDigits, digitsVal]
    norm_num
  · exact ⟨⟨true, "D_PAGES: about one page\nAPPROVED: YE", [], 1⟩, by rfl, rfl⟩

/-- Witness for C3_parse_tolerance on a fully well-formed response. -/
theorem C3_parse_tolerance_witness :
    ∃ r, parse_quality_response "ESTIMATED_PAGES: 2\nAPPROVED: YES\nFEEDBACK: ok\nSUGGESTED_CHANGES:\n- x"
      = Except.ok r :=
  C3_parse_tolerance.1 _ (by decide) (by decide)

/-- C4 counterexample: the response `ESTIMATED_PAGES: 2` / `APPROVED: NOT
YES` has an APPROVED field of exactly "NOT YES", which is not the token
`YES`, yet `check_resume` reports `is_approved = true` — the flag is set
by substring containment, not by exact token match. -/
theorem C4_counterexample :
    parse_quality_response "ESTIMATED_PAGES: 2\nAPPROVED: NOT YES"
      = Except.ok ⟨true, "D_PAGES: 2\nAPPROVED: NOT YE", [], ratOfToken ['2']⟩
    ∧ pyStrip ((pySplit ':' "APPROVED: NOT YES").getD 1 "") = "NOT YES"
    ∧ ("NOT YES" : String) ≠ "YES" := ⟨rfl, by decide, by decide⟩

/-- C4 (amended): the approval flag returned by `check_resume` is true
exactly when the APPROVED field *contains* `YES` as a substring (so
`APPROVED: NO` yields false, `APPROVED: YES` yields true, but also
`APPROVED: NOT YES` yields true — containment, not exact match). -/
theorem C4_substring_semantics :
    (∀ (response : String) (r : QualityCheckResult),
      parse_quality_response response = Except.ok r →
      ∃ f, approvedFieldOf response = some f ∧ r.is_approved = pyIn "YES" f)
    ∧ pyIn "YES" "NO" = false
    ∧ pyIn "YES" "YES" = true
    ∧ pyIn "YES" "NOT YES" = true
    ∧ (parse_quality_response "ESTIMATED_PAGES: 1\nAPPROVED: NO").toOption.map
        QualityCheckResult.is_approved = some false := by
  refine ⟨?_, by decide, by decide, by decide, by rfl⟩
  intro response r h
  obtain ⟨l1, l2, hl1, hl2, happ⟩ := parse_ok_inv response r h
  refine ⟨pyStrip ((pySplit ':' l2).getD 1 ""), ?_, happ⟩
  rw [approvedFieldOf, hl2]
  rfl

/-- Witness for C4_substring_semantics: the concrete `APPROVED: NO`
response, with its field "NO" and flag false. -/
theorem C4_substring_semantics_witness :
    ∃ f, approvedFieldOf "ESTIMATED_PAGES: 1\nAPPROVED: NO" = some f
      ∧ (⟨false, "D_PAGES: 1\nAPPROVED: N", [], 1⟩ : QualityCheckResult).is_approved
          = pyIn "YES" f :=
  C4_substring_semantics.1 "ESTIMATED_PAGES: 1\nAPPROVED: NO"
    ⟨false, "D_PAGES: 1\nAPPROVED: N", [], 1⟩ (by rfl)

theorem escapeChar_count_amp (c : Char) :
    (escapeChar c).data.count '&' = if c = '&' then 1 else 0 := by
  by_cases h : c = '&'
  · subst h; decide
  · rw [if_neg h]
    unfold escapeChar
    rw [if_neg h]
    split_ifs with h2 h3 h4 h5 h6 h7 h8 h9 h10 <;>
      first
        | decide
        | simp [String.singleton, List.count_cons, List.count_nil, h]

theorem escapeList_count_amp (l : List Char) :
    (escapeList l).data.count '&' = l.count '&' := by
  induction l with
  | nil => simp [escapeList]
  | cons c t ih =>
      rw [escapeList, String.data_append, List.count_append, escapeChar_count_amp,
        ih, List.count_cons]
      by_cases h : c = '&' <;> simp [h] <;> omega

theorem escape_latex_singleton_nonreserved (c : Char) (h : c ∉ reservedChars) :
    escape_latex (String.singleton c) = String.singleton c := by
  simp only [reservedChars, List.mem_cons, List.mem_singleton, not_or] at h
  obtain ⟨h1, h2, h3, h4, h5, h6, h7, h8, h9, h10, -⟩ := h
  show escapeList [c] = String.singleton c
  rw [escapeList, escapeList]
  unfold escapeChar
  rw [if_neg h1, if_neg h2, if_neg h3, if_neg h4, if_neg h5, if_neg h6, if_neg h7,
    if_neg h8, if_neg h9, if_neg h10]
  simp

/-- C6: `escape_latex` escapes exactly the fixed ten-character set, each
to its literal-producing sequence, as one simultaneous left-to-right pass:
it is a homomorphism on concatenation (each character is mapped
independently, so no replacement text is ever re-scanned by a later
rule), every non-reserved character is unchanged, each input ampersand
yields exactly one ampersand in the output (never doubled), an input
backslash maps to its final escape sequence, and the result differs from
what sequential rule-by-rule substitution would produce (which would
re-escape the backslash of an earlier replacement). -/
theorem C6_escape_simultaneous :
    (∀ s t : String, escape_latex (s ++ t) = escape_latex s ++ escape_latex t)
    ∧ escape_latex "&" = "\\&"
    ∧ escape_latex "%" = "\\%"
    ∧ escape_latex "$" = "\\$"
    ∧ escape_latex "#" = "\\#"
    ∧ escape_latex "_" = "\\_"
    ∧ escape_latex "\x7b" = "\\\x7b"
    ∧ escape_latex "\x7d" = "\\\x7d"
    ∧ escape_latex "~" = "\\textasciitilde\x7b\x7d"
    ∧ escape_latex "^" = "\\textasciicircum\x7b\x7d"
    ∧ escape_latex "\\" = "\\textbackslash\x7b\x7d"
    ∧ (∀ c : Char, c ∉ reservedChars →
        escape_latex (String.singleton c) = String.singleton c)
    ∧ (∀ s : String, (escape_latex s).data.count '&' = s.data.count '&')
    ∧ escape_latex "a&b" = "a\\&b"
    ∧ seqEscapeLatex "&" = "\\textbackslash\x7b\x7d&"
    ∧ escape_latex "&" ≠ seqEscapeLatex "&" := by
  refine ⟨?_, by decide, by decide, by decide, by decide, by decide, by decide,
    by decide, by decide, by decide, by decide,
    escape_latex_singleton_nonreserved,
    fun s => escapeList_count_amp s.data, by decide, by decide, by decide⟩
  intro s t
  show escapeList (s ++ t).data = _
  rw [String.data_append, escapeList_append]
  rfl

/-- Witness for C6_escape_simultaneous: the non-reserved letter `a`
passes through unchanged. -/
theorem C6_escape_simultaneous_witness :
    escape_latex (String.singleton 'a') = String.singleton 'a' :=
  C6_escape_simultaneous.2.2.2.2.2.2.2.2.2.2.2.1 'a' (by decide)

theorem format_experience_entries_ok (exps : List ExpDict)
    (h : ∀ e ∈ exps, e.company.isSome ∧ e.role.isSome ∧ e.dates.isSome ∧ e.location.isSome) :
    format_experience_entries exps = Except.ok (exps.map (fun e =>
      format_experience (e.company.getD "") (e.role.getD "") (e.dates.getD "")
        (e.location.getD "") (e.projects.getD []))) := by
  induction exps with
  | nil => rfl
  | cons e t ih =>
      obtain ⟨hc, hr, hd, hl⟩ := h e (List.mem_cons_self e t)
      obtain ⟨c, hce⟩ := Option.isSome_iff_exists.mp hc
      obtain ⟨r, hre⟩ := Option.isSome_iff_exists.mp hr
      obtain ⟨d, hde⟩ := Option.isSome_iff_exists.mp hd
      obtain ⟨l, hle⟩ := Option.isSome_iff_exists.mp hl
      have ht := ih (fun x hx => h x (List.mem_cons_of_mem e hx))
      rw [format_experience_entries] at ht ⊢
      simp [mapME, format_experience_entry, pyGet, hce, hre, hde, hle, ht,
        Bind.bind, Except.bind, Pure.pure, Except.pure]

theorem format_experience_entries_err (exps : List ExpDict)
    (h : ∃ e ∈ exps, e.company = none ∨ e.role = none) :
    ∃ msg, format_experience_entries exps = Except.error msg := by
  induction exps with
  | nil => simp at h
  | cons e t ih =>
      obtain ⟨e0, he0, hbad⟩ := h
      rcases List.mem_cons.mp he0 with rfl | hmem
      · rcases hbad with hco | hro
        · exact ⟨"KeyError: company", by
            simp [format_experience_entries, mapME, format_experience_entry,
              pyGet, hco, Bind.bind, Except.bind, Pure.pure, Except.pure]⟩
        · cases hcomp : e0.company with
          | none => exact ⟨"KeyError: company", by
              simp [format_experience_entries, mapME, format_experience_entry,
                pyGet, hcomp, Bind.bind, Except.bind, Pure.pure, Except.pure]⟩
          | some c => exact ⟨"KeyError: role", by
              simp [format_experience_entries, mapME, format_experience_entry,
                pyGet, hcomp, hro, Bind.bind, Except.bind, Pure.pure, Except.pure]⟩
      · obtain ⟨msg, hmsg⟩ := ih ⟨e0, hmem, hbad⟩
        rw [format_experience_entries] at hmsg
        cases hfe : format_experience_entry e with
        | error m => exact ⟨m, by
            simp [format_experience_entries, mapME, hfe,
              Bind.bind, Except.bind, Pure.pure, Except.pure]⟩
        | ok v => exact ⟨msg, by
            simp [format_experience_entries, mapME, hfe, hmsg,
              Bind.bind, Except.bind, Pure.pure, Except.pure]⟩

/-- C2 counterexample: a list holding one fully valid experience record
followed by one missing its `company` key makes the experience loop of
`generate_latex` raise `KeyError: company` — the invalid record is not
silently omitted, an error IS raised, and the valid record does not
appear in any output (the whole generation fails). -/
theorem C2_counterexample :
    format_experience_entries
      [⟨some "Acme", some "Engineer", some "2020-2022", some "Remote", none⟩,
       ⟨none, some "Dev", some "2021", some "NYC", none⟩]
      = Except.error "KeyError: company"
    ∧ generate_latex [] (fun _ _ => Except.error "GenerationUnavailable") 3
        ⟨some "N", some "e", some "p", some "l", some "li", some "s", some "k",
         some [⟨some "Acme", some "Engineer", some "2020-2022", some "Remote", none⟩,
               ⟨none, some "Dev", some "2021", some "NYC", none⟩],
         none, some [], none, none, none, none⟩ none false
      = Except.error "KeyError: company" := ⟨rfl, rfl⟩

/-- C2 (amended): when every record in the list has its `company`,
`role`, `dates` and `location` keys, each record contributes exactly one
fragment, in original list order; but a record missing its company or its
role makes the whole experience loop raise a KeyError (generation aborts)
instead of being silently omitted; and a record whose identity fields are
present but empty still produces a non-empty fragment rather than an
empty contribution. -/
theorem C2_missing_identity :
    (∀ exps : List ExpDict,
      (∀ e ∈ exps, e.company.isSome ∧ e.role.isSome ∧ e.dates.isSome ∧ e.location.isSome) →
      format_experience_entries exps = Except.ok (exps.map (fun e =>
        format_experience (e.company.getD "") (e.role.getD "") (e.dates.getD "")
          (e.location.getD "") (e.projects.getD []))))
    ∧ (∀ exps : List ExpDict, (∃ e ∈ exps, e.company = none ∨ e.role = none) →
        ∃ msg, format_experience_entries exps = Except.error msg)
    ∧ format_experience "" "" "" "" [] ≠ "" :=
  ⟨format_experience_entries_ok, format_experience_entries_err, by decide⟩

/-- Witness for C2_missing_identity: one valid record formats to exactly
one fragment. -/
theorem C2_missing_identity_witness :
    format_experience_entries
      [⟨some "Acme", some "Engineer", some "2020", some "Remote", none⟩]
      = Except.ok [format_experience "Acme" "Engineer" "2020" "Remote" []] := by
  have h := C2_missing_identity.1
    [⟨some "Acme", some "Engineer", some "2020", some "Remote", none⟩] (by decide)
  simpa using h

theorem generate_latex_typeerror (tpl : List TemplatePiece)
    (svc : String → String → Except String String) (max_rounds : Nat)
    (data : ResumeData) (jd s : String)
    (hs : data.summary = some s) (hjd : jd ≠ "") :
    generate_latex tpl svc max_rounds data (some jd) true
      = Except.error "TypeError: optimize_content() got multiple values for argument 'content_type'" := by
  simp [generate_latex, generateKwargs, generatorOptimizeCall, bindOptimizeCall,
    pyGet, hs, truthy, hjd, Bind.bind, Except.bind]

/-- C9: whenever content optimization is enabled and a non-empty job
description is supplied (and the summary key is present), the first
refinement call in `generate_latex` raises a TypeError — the job
description is bound positionally to the `content_type` parameter which
the call also supplies by keyword — and the outcome is identical for
every behavior of the external service, i.e. the failure happens before
any service call; the content-optimization path can never succeed. -/
theorem C9_optimize_call_typeerror (tpl : List TemplatePiece)
    (svc svc' : String → String → Except String String) (max_rounds : Nat)
    (data : ResumeData) (jd s : String)
    (hs : data.summary = some s) (hjd : jd ≠ "") :
    generate_latex tpl svc max_rounds data (some jd) true
      = Except.error "TypeError: optimize_content() got multiple values for argument 'content_type'"
    ∧ generate_latex tpl svc max_rounds data (some jd) true
      = generate_latex tpl svc' max_rounds data (some jd) true :=
  ⟨generate_latex_typeerror tpl svc max_rounds data jd s hs hjd,
   (generate_latex_typeerror tpl svc max_rounds data jd s hs hjd).trans
     (generate_latex_typeerror tpl svc' max_rounds data jd s hs hjd).symm⟩

/-- Witness for C9_optimize_call_typeerror on concrete data. -/
theorem C9_optimize_call_typeerror_witness :
    generate_latex [] (fun _ _ => Except.ok "completion") 3
      ⟨some "N", some "e", some "p", some "l", some "li", some "sum", some "sk",
       some [], none, some [], none, none, none, none⟩ (some "the job") true
      = Except.error "TypeError: optimize_content() got multiple values for argument 'content_type'" :=
  (C9_optimize_call_typeerror [] (fun _ _ => Except.ok "completion")
    (fun _ _ => Except.error "down") 3
    ⟨some "N", some "e", some "p", some "l", some "li", some "sum", some "sk",
     some [], none, some [], none, none, none, none⟩ "the job" "sum" rfl (by decide)).1

theorem generateKwargs_summary_lookup
    (svc : String → String → Except String String) (max_rounds : Nat)
    (data : ResumeData) (jd : Option String) (flag : Bool) (s : String)
    (kw : List (String × String))
    (hskip : flag = false ∨ truthy jd = false)
    (hs : data.summary = some s)
    (hok : generateKwargs svc max_rounds data jd flag = Except.ok kw) :
    kw.lookup "summary" = some (escape_latex (escape_latex s)) := by
  have hc : (flag && truthy jd) = false := by
    rcases hskip with h | h <;> simp [h]
  rw [generateKwargs] at hok
  rw [hc] at hok
  simp only [if_false, Bool.false_eq_true] at hok
  rw [hs] at hok
  simp only [pyGet] at hok
  obtain ⟨su, hsu, hok⟩ := exceptBind_ok hok
  injection hsu with hsu'
  subst hsu'
  obtain ⟨sk, hsk, hok⟩ := exceptBind_ok hok
  obtain ⟨exps, hexps, hok⟩ := exceptBind_ok hok
  obtain ⟨experiences, hexperiences, hok⟩ := exceptBind_ok hok
  split at hok
  · obtain ⟨formatted, hform, hok⟩ := exceptBind_ok hok
    obtain ⟨y, hy, hok⟩ := exceptBind_ok hok
    obtain ⟨edus, hedus, hok⟩ := exceptBind_ok hok
    obtain ⟨education, hedu, hok⟩ := exceptBind_ok hok
    obtain ⟨certs, hcerts, hok⟩ := exceptBind_ok hok
    obtain ⟨li, hli, hok⟩ := exceptBind_ok hok
    obtain ⟨nm, hnm, hok⟩ := exceptBind_ok hok
    obtain ⟨em, hem, hok⟩ := exceptBind_ok hok
    obtain ⟨ph, hph, hok⟩ := exceptBind_ok hok
    obtain ⟨loc, hloc, hok⟩ := exceptBind_ok hok
    injection hok with hok'
    subst hok'
    rfl
  · obtain ⟨y, hy, hok⟩ := exceptBind_ok hok
    obtain ⟨edus, hedus, hok⟩ := exceptBind_ok hok
    obtain ⟨education, hedu, hok⟩ := exceptBind_ok hok
    obtain ⟨certs, hcerts, hok⟩ := exceptBind_ok hok
    obtain ⟨li, hli, hok⟩ := exceptBind_ok hok
    obtain ⟨nm, hnm, hok⟩ := exceptBind_ok hok
    obtain ⟨em, hem, hok⟩ := exceptBind_ok hok
    obtain ⟨ph, hph, hok⟩ := exceptBind_ok hok
    obtain ⟨loc, hloc, hok⟩ := exceptBind_ok hok
    injection hok with hok'
    subst hok'
    rfl

/-- C10: on every generation request where refinement is skipped
(optimization disabled or no truthy job description), the summary is
escaped twice — once at the binding `summary = escape_latex(summary)` and
once more inside `template.format(... summary=escape_latex(summary) ...)`
— so the summary slot of the assembled document holds
`escape_latex (escape_latex s)`; concretely an ampersand in the summary
reaches the document as `\textbackslash{}\&`, not as the singly-escaped
`\&`. -/
theorem C10_summary_double_escape :
    (∀ (svc : String → String → Except String String) (max_rounds : Nat)
      (data : ResumeData) (jd : Option String) (flag : Bool) (s : String)
      (kw : List (String × String)),
      flag = false ∨ truthy jd = false →
      data.summary = some s →
      generateKwargs svc max_rounds data jd flag = Except.ok kw →
      kw.lookup "summary" = some (escape_latex (escape_latex s)))
    ∧ escape_latex (escape_latex "&") = "\\textbackslash\x7b\x7d\\&"
    ∧ escape_latex "&" = "\\&"
    ∧ escape_latex (escape_latex "&") ≠ escape_latex "&"
    ∧ generate_latex [TemplatePiece.slot "summary"]
        (fun _ _ => Except.error "GenerationUnavailable") 3
        ⟨some "N", some "e", some "p", some "l", some "li", some "&", some "sk",
         some [], none, some [], none, none, none, none⟩ none false
      = Except.ok ("\\textbackslash\x7b\x7d\\&", none) :=
  ⟨generateKwargs_summary_lookup, by decide, by decide, by decide, by rfl⟩

/-- Witness for C10_summary_double_escape: the computed keyword arguments
of a concrete skipped-refinement request map the summary slot to the
doubly-escaped ampersand. -/
theorem C10_summary_double_escape_witness :
    ((generateKwargs (fun _ _ => Except.error "GenerationUnavailable") 3
        ⟨some "N", some "e", some "p", some "l", some "li", some "&", some "sk",
         some [], none, some [], none, none, none, none⟩ none false).toOption.getD
      []).lookup "summary" = some (escape_latex (escape_latex "&")) :=
  C10_summary_double_escape.1 (fun _ _ => Except.error "GenerationUnavailable") 3
    ⟨some "N", some "e", some "p", some "l", some "li", some "&", some "sk",
     some [], none, some [], none, none, none, none⟩ none false "&" _
    (Or.inl rfl) rfl rfl

/-- C5 counterexample: with an erroring text-generation service, the
document-generation path does not fall back to unrefined content — the
very same request fails with a TypeError before any service interaction
and produces no document — while the bulk-experiment path does fall back
to the original content for the failing item. -/
theorem C5_counterexample :
    generate_latex [TemplatePiece.slot "summary"]
        (fun _ _ => Except.error "GenerationUnavailable") 3
        ⟨some "N", some "e", some "p", some "l", some "li", some "draft summary",
         some "sk", some [], none, some [], none, none, none, none⟩ (some "jd") true
      = Except.error "TypeError: optimize_content() got multiple values for argument 'content_type'"
    ∧ experiment_optimize_content (fun _ _ => Except.error "GenerationUnavailable")
        "draft text" "summary" (some "jd") = "draft text" := ⟨rfl, rfl⟩

/-- C5 (amended): the bulk-experiment path has the claimed
partial-failure policy — every row is processed, a failing optimization
falls back to the row's original content, and with a totally failing
service the whole batch completes with original contents — but the
document-generation path does NOT fall back: with optimization enabled
and a truthy job description `generate_latex` propagates an error (in
fact the TypeError of the mis-bound optimize call) and produces no
document. -/
theorem C5_partial_failure :
    (∀ (svc : String → String → Except String String) (rows : List ExperimentRow),
      (run_experiment svc rows).length = rows.length)
    ∧ (∀ (content content_type : String) (jd : Option String),
        experiment_optimize_content (fun _ _ => Except.error "GenerationUnavailable")
          content content_type jd = content)
    ∧ (∀ row : ExperimentRow,
        process_row (fun _ _ => Except.error "GenerationUnavailable") row
          = ⟨row.summary, row.skills, row.work_experience, row.projects⟩)
    ∧ (∀ (tpl : List TemplatePiece) (svc : String → String → Except String String)
        (max_rounds : Nat) (data : ResumeData) (jd s : String),
        jd ≠ "" → data.summary = some s →
        ∃ msg, generate_latex tpl svc max_rounds data (some jd) true
          = Except.error msg) := by
  refine ⟨?_, ?_, ?_, ?_⟩
  · intro svc rows
    simp [run_experiment]
  · intro c ct jd
    rfl
  · intro row
    rcases row with ⟨su, sk, we, pr, jdr⟩
    cases pr with
    | none => rfl
    | some p => rfl
  · intro tpl svc max_rounds data jd s hjd hs
    exact ⟨_, generate_latex_typeerror tpl svc max_rounds data jd s hs hjd⟩

/-- Witness for C5_partial_failure on a concrete enabled-optimization
request. -/
theorem C5_partial_failure_witness :
    ∃ msg, generate_latex [] (fun _ _ => Except.ok "fine") 3
      ⟨some "N", some "e", some "p", some "l", some "li", some "su", some "sk",
       some [], none, some [], none, none, none, none⟩ (some "j") true
      = Except.error msg :=
  C5_partial_failure.2.2.2 [] (fun _ _ => Except.ok "fine") 3
    ⟨some "N", some "e", some "p", some "l", some "li", some "su", some "sk",
     some [], none, some [], none, none, none, none⟩ "j" "su" (by decide) rfl
